import Mathlib

/-!
Verification of the delira training/sampling core against its natural-language
specification. The definitions below are a shallow embedding of the Python
sources:

* `delira/data_loading/sampler/weighted_sampler.py` (WeightedRandomSampler),
* `delira/training/train_utils.py` (batch normalization, TF variable
  reconciliation),
* `delira/training/tf_trainer.py` (TfNetworkTrainer).

Stateful methods are embedded as explicit state-passing functions; Python
exceptions are embedded through the `PyErr` error type and `Except`.
-/

/-- Error conditions. The constructors `nameError`, `stopIteration`,
`typeError`, `valueError` and `indexError` embed the Python exceptions the
sources can raise; `invalidConfiguration` and `checkpointNotFound` embed the
spec's error-taxonomy conditions (InvalidConfiguration, CheckpointNotFound) so
that claims naming them can be stated — no embedded code below produces
`invalidConfiguration`. -/
inductive PyErr where
  | nameError (missing : String)
  | stopIteration
  | typeError (msg : String)
  | valueError (msg : String)
  | indexError
  | invalidConfiguration
  | checkpointNotFound
deriving DecidableEq, Repr

/- ## WeightedRandomSampler (weighted_sampler.py) -/

/-- Sampler state: the fields `__init__` assigns (`self._indices`,
`self._weights`, `self._global_index`). `_indices` is the index population
`list(range(len(indices)))`; weights are the optional probability vector
passed to `numpy.random.choice` as `p`. -/
structure WRSampler where
  _indices : List Nat
  _weights : Option (List Rat)
  _global_index : Nat
deriving DecidableEq, Repr

/-- Names in scope inside the body of `WeightedRandomSampler.__init__`:
its parameters, the module-level bindings of `weighted_sampler.py`
(the two imports, `choice`, and the class itself), and the Python builtins
the body mentions. The name `weight` is not among them. -/
def init_scope_names : List String :=
  ["self", "indices", "weights",
   "AbstractDataset", "AbstractSampler", "choice", "WeightedRandomSampler",
   "list", "range", "len", "super"]

/-- Python name resolution: evaluating an identifier that is bound in no
enclosing scope raises `NameError`. -/
def lookup_name (scope : List String) (n : String) : Except PyErr Unit :=
  if n ∈ scope then Except.ok () else Except.error (PyErr.nameError n)

/-- Embedding of `WeightedRandomSampler.__init__`. Its body runs, in order,
`self._indices = list(range(len(indices)))` and then
`self._weights = weight`; the right-hand side `weight` is an unbound name
(the parameter is called `weights`), so evaluating it raises `NameError`
before `self._global_index = 0` is reached. The `ok` branch of the lookup is
unreachable; it records the remaining field assignments with the parameter
`weights` standing in for the value the lookup would have produced. -/
def WeightedRandomSampler_init (indices : List Int) (weights : Option (List Rat)) :
    Except PyErr WRSampler :=
  let inds := List.range indices.length
  match lookup_name init_scope_names "weight" with
  | Except.error e => Except.error e
  | Except.ok _ =>
      Except.ok { _indices := inds, _weights := weights, _global_index := 0 }

/-- A sample of an `AbstractDataset`: the spec's dataset collaborator
"exposes a `label` field per sample". -/
structure DatasetSample where
  label : Int
deriving DecidableEq, Repr

/-- Dataset collaborator: `len(dataset)` is the length of its `data` list. -/
structure PyDataset where
  data : List DatasetSample
deriving DecidableEq, Repr

/-- Embedding of `WeightedRandomSampler.from_dataset`: it computes
`indices = list(range(len(dataset)))` (unused, as in the source), extracts
`labels = [d['label'] for d in dataset.data]`, and calls the constructor
`cls(labels, **kwargs)`. -/
def WeightedRandomSampler_from_dataset (dataset : PyDataset)
    (weights : Option (List Rat)) : Except PyErr WRSampler :=
  let inds := List.range dataset.data.length
  let labels := dataset.data.map (fun d => d.label)
  let _ := inds
  WeightedRandomSampler_init labels weights

/-- Model of `numpy.random.choice(population, size=size, p=p)` restricted to
what the sampler's contract depends on: a draw with replacement of exactly
`size` elements of `population` (`p` biases which elements are drawn, never
how many; the model returns a deterministic representative draw and assumes,
as the spec does, a valid probability vector). -/
def choice (population : List Nat) (size : Nat) (p : Option (List Rat)) : List Nat :=
  let _ := p
  List.replicate size (population.headD 0)

/-- Embedding of `WeightedRandomSampler._get_indices`. Returns the outcome of
the call (the sampled indices, or the raised `StopIteration`) together with
the post-call sampler state: on exhaustion the source sets
`self._global_index = 0` before raising. -/
def _get_indices (s : WRSampler) (n_indices : Nat) :
    Except PyErr (List Nat) × WRSampler :=
  if s._global_index ≥ s._indices.length then
    (Except.error PyErr.stopIteration, { s with _global_index := 0 })
  else
    let new_global_idx := s._global_index + n_indices
    let new_global_idx :=
      if new_global_idx ≥ s._indices.length then s._indices.length
      else new_global_idx
    let samples := choice s._indices (new_global_idx - s._global_index) s._weights
    (Except.ok samples, { s with _global_index := new_global_idx })

/-- Embedding of `WeightedRandomSampler.__len__`. -/
def WeightedRandomSampler_len (s : WRSampler) : Nat := s._indices.length

/-- The sampler-state fields `__init__` would leave behind had its body
completed (reading the assignment `self._weights = weight` as the intended
parameter `weights`): the index population `list(range(len(indices)))` and a
cursor of `0`. Used to state cursor-invariant claims about the sampler state
machine; as written the constructor never completes
(see `WeightedRandomSampler_init`). -/
def initState (indices : List Int) (weights : Option (List Rat)) : WRSampler :=
  { _indices := List.range indices.length, _weights := weights, _global_index := 0 }

/-- One full sampling pass: repeatedly call `_get_indices` with request size
`k`, accumulating how many indices were returned, until the call raises
(or the fuel runs out; fuel `population size + 1` always suffices when
`k ≥ 1`). Returns the total count and the state after the raising call. -/
def runPass : WRSampler → Nat → Nat → Nat × WRSampler
  | s, _, 0 => (0, s)
  | s, k, fuel + 1 =>
    match _get_indices s k with
    | (Except.ok samples, s2) =>
        let r := runPass s2 k fuel
        (samples.length + r.1, r.2)
    | (Except.error _, s2) => (0, s2)

/- ## Sampler theorems -/

/-- C1: constructing a `WeightedRandomSampler` through its public constructor
(with or without a weights argument, for every indices list) always raises a
`NameError`, because the constructor evaluates the undefined name `weight`
instead of the parameter `weights`; consequently no sampler instance can ever
be created, including via `from_dataset`. -/
theorem weighted_sampler_init_always_name_error :
    (∀ (indices : List Int) (weights : Option (List Rat)),
      WeightedRandomSampler_init indices weights =
        Except.error (PyErr.nameError "weight"))
    ∧ (∀ (dataset : PyDataset) (weights : Option (List Rat)),
      WeightedRandomSampler_from_dataset dataset weights =
        Except.error (PyErr.nameError "weight")) :=
  ⟨fun _ _ => rfl, fun _ _ => rfl⟩

/-- C2 counterexample: constructing with a population of size 2 and a weight
vector of length 1 (mismatched lengths) does not fail with the spec's
InvalidConfiguration condition — it fails with the `NameError` raised by the
undefined name `weight`, before any weight-length validation could run. -/
theorem weighted_sampler_mismatch_not_invalid_configuration :
    WeightedRandomSampler_init [7, 8] (some [1]) =
      Except.error (PyErr.nameError "weight")
    ∧ (Except.error (PyErr.nameError "weight") :
        Except PyErr WRSampler) ≠
      Except.error PyErr.invalidConfiguration :=
  ⟨rfl, by simp⟩

/-- C2 amended: for every population and every weight vector whose length
differs from the population's, construction does fail at construction time,
but with a `NameError` (the undefined-name bug), not with an
InvalidConfiguration condition; no weight-length validation is performed by
the constructor. -/
theorem weighted_sampler_mismatch_fails_name_error
    (indices : List Int) (w : List Rat)
    (hmis : w.length ≠ indices.length) :
    WeightedRandomSampler_init indices (some w) =
      Except.error (PyErr.nameError "weight") :=
  rfl

/-- Witness for `weighted_sampler_mismatch_fails_name_error` at a population
of size 2 and a weight vector of length 1. -/
theorem weighted_sampler_mismatch_fails_name_error_witness :
    WeightedRandomSampler_init [7, 8] (some [1]) =
      Except.error (PyErr.nameError "weight") :=
  weighted_sampler_mismatch_fails_name_error [7, 8] [1] (by decide)

/-- Helper: a full pass of `_get_indices` calls with request size `k ≥ 1`,
started at any cursor `c ≤ N` with fuel exceeding `N - c`, returns exactly
`N - c` indices in total and ends (via the raising call) with the cursor
reset to `0`. -/
theorem runPass_eq :
    ∀ (fuel : Nat) (inds : List Nat) (w : Option (List Rat)) (c k : Nat),
      1 ≤ k → c ≤ inds.length → inds.length - c < fuel →
      runPass ⟨inds, w, c⟩ k fuel = (inds.length - c, ⟨inds, w, 0⟩) := by
  intro fuel
  induction fuel with
  | zero =>
      intro inds w c k hk hc hf
      omega
  | succ f ih =>
      intro inds w c k hk hc hf
      by_cases hend : inds.length ≤ c
      · have hc0 : inds.length - c = 0 := by omega
        simp [runPass, _get_indices, hend, hc0]
      · have hlt : c < inds.length := by omega
        by_cases hfull : inds.length ≤ c + k
        · have h1 : runPass ⟨inds, w, inds.length⟩ k f =
              (inds.length - inds.length, ⟨inds, w, 0⟩) :=
            ih inds w inds.length k hk (le_refl _) (by omega)
          simp [runPass, _get_indices, hend, hfull, choice, h1]
        · have h1 : runPass ⟨inds, w, c + k⟩ k f =
              (inds.length - (c + k), ⟨inds, w, 0⟩) :=
            ih inds w (c + k) k hk (by omega) (by omega)
          simp [runPass, _get_indices, hend, hfull, choice, h1]
          omega

/-- C3: if the cursor equals the population size `N` when `_get_indices` is
called, the call raises `StopIteration` and leaves the cursor reset to `0`;
and across one full pass with request size `k` (`1 ≤ k ≤ N`) the total number
of indices returned before that exhaustion signal equals `N` exactly. -/
theorem sampler_exhaustion_and_full_pass
    (inds : List Nat) (w : Option (List Rat)) (k : Nat)
    (hk : 1 ≤ k) (hkN : k ≤ inds.length) :
    _get_indices ⟨inds, w, inds.length⟩ k =
      (Except.error PyErr.stopIteration, ⟨inds, w, 0⟩)
    ∧ runPass ⟨inds, w, 0⟩ k (inds.length + 1) =
      (inds.length, ⟨inds, w, 0⟩) := by
  constructor
  · simp [_get_indices]
  · have h := runPass_eq (inds.length + 1) inds w 0 k hk (Nat.zero_le _) (by omega)
    simpa using h

/-- Witness for `sampler_exhaustion_and_full_pass` on a population of size 3
with request size 2. -/
theorem sampler_exhaustion_and_full_pass_witness :
    _get_indices ⟨[4, 5, 6], none, 3⟩ 2 =
      (Except.error PyErr.stopIteration, ⟨[4, 5, 6], none, 0⟩)
    ∧ runPass ⟨[4, 5, 6], none, 0⟩ 2 4 = (3, ⟨[4, 5, 6], none, 0⟩) :=
  sampler_exhaustion_and_full_pass [4, 5, 6] none 2 (by decide) (by decide)

/-- C4: for every sampler state whose cursor `c` is strictly below the
population size `N` and every request size `n`, `_get_indices` returns a
batch of exactly `min n (N - c)` indices (never raising early) and advances
the cursor by exactly that count, leaving the population unchanged. -/
theorem get_indices_short_batch (s : WRSampler) (n : Nat)
    (h : s._global_index < s._indices.length) :
    ∃ samples : List Nat,
      (_get_indices s n).1 = Except.ok samples
      ∧ samples.length = min n (s._indices.length - s._global_index)
      ∧ ((_get_indices s n).2)._global_index = s._global_index + samples.length
      ∧ ((_get_indices s n).2)._indices = s._indices := by
  rcases s with ⟨inds, w, c⟩
  simp only at h
  have hend : ¬ inds.length ≤ c := by omega
  by_cases hfull : inds.length ≤ c + n
  · refine ⟨choice inds (inds.length - c) w, ?_⟩
    simp [_get_indices, hend, hfull, choice]
    omega
  · refine ⟨choice inds n w, ?_⟩
    simp [_get_indices, hend, hfull, choice]
    omega

/-- Witness for `get_indices_short_batch`: population of size 3, cursor 1,
request size 5 — the batch is short (length 2). -/
theorem get_indices_short_batch_witness :
    ∃ samples : List Nat,
      (_get_indices ⟨[4, 5, 6], none, 1⟩ 5).1 = Except.ok samples
      ∧ samples.length = min 5 ([4, 5, 6].length - 1)
      ∧ ((_get_indices ⟨[4, 5, 6], none, 1⟩ 5).2)._global_index =
          1 + samples.length
      ∧ ((_get_indices ⟨[4, 5, 6], none, 1⟩ 5).2)._indices = [4, 5, 6] :=
  get_indices_short_batch ⟨[4, 5, 6], none, 1⟩ 5 (by decide)

/-- C5: the invariant `0 ≤ cursor ≤ population size` holds in the initial
sampler state (the field state `__init__` assigns) and is preserved by every
`_get_indices` call, whether it returns a batch or raises; when it raises,
the cursor is `0` afterwards. (Cursors are naturals, so `0 ≤ cursor` is
implicit.) -/
theorem sampler_cursor_invariant
    (indices : List Int) (weights : Option (List Rat))
    (s : WRSampler) (n : Nat)
    (hinv : s._global_index ≤ s._indices.length) :
    (initState indices weights)._global_index ≤
      (initState indices weights)._indices.length
    ∧ ((_get_indices s n).2)._global_index ≤
        ((_get_indices s n).2)._indices.length
    ∧ (∀ e, (_get_indices s n).1 = Except.error e →
        ((_get_indices s n).2)._global_index = 0) := by
  rcases s with ⟨inds, w, c⟩
  refine ⟨Nat.zero_le _, ?_, ?_⟩
  · by_cases hend : inds.length ≤ c
    · simp [_get_indices, hend]
    · by_cases hfull : inds.length ≤ c + n
      · simp [_get_indices, hend, hfull]
      · simp [_get_indices, hend, hfull]
        omega
  · intro e he
    by_cases hend : inds.length ≤ c
    · simp [_get_indices, hend]
    · by_cases hfull : inds.length ≤ c + n <;>
        simp [_get_indices, hend, hfull] at he

/- ## Batch normalization (train_utils.py) -/

/-- A Python object as far as the batch-normalization functions inspect one:
a numpy array is characterized by its shape, anything else by an opaque
non-array value. -/
inductive PyObj where
  | npArr (shape : List Nat)
  | intVal (n : Int)
deriving DecidableEq, Repr

/-- Embedding of `_check_and_correct_zero_shape`: a numpy array whose shape
is `()` is reshaped to shape `(1,)`; every other argument is returned as
is. -/
def _check_and_correct_zero_shape (arg : PyObj) : PyObj :=
  match arg with
  | PyObj.npArr [] => PyObj.npArr [1]
  | a => a

/-- Python tuple unpacking `idx, arg = v` as it behaves on the objects of
`PyObj`: a zero-rank numpy array is not iterable (`TypeError`), a plain
integer is not iterable (`TypeError`), and iterating an array of leading
dimension `d` yields `d` sub-arrays, so unpacking into two targets needs
`d = 2` (`ValueError` otherwise). -/
def unpack2 (v : PyObj) : Except PyErr (PyObj × PyObj) :=
  match v with
  | PyObj.npArr [] =>
      Except.error (PyErr.typeError "iteration over a 0-d array")
  | PyObj.npArr (d :: rest) =>
      if d = 2 then Except.ok (PyObj.npArr rest, PyObj.npArr rest)
      else Except.error (PyErr.valueError "unpack count mismatch")
  | PyObj.intVal _ =>
      Except.error (PyErr.typeError "cannot unpack non-iterable int")

/-- Python list item assignment `xs[idx] = v`. Only integer indices are
modelled (the loop below can in principle also produce array indices; the
claims never reach that path): a negative index counts from the end, an
out-of-range index raises `IndexError`, a non-integer index raises
`TypeError`. -/
def list_setitem (xs : List PyObj) (idx : PyObj) (v : PyObj) :
    Except PyErr (List PyObj) :=
  match idx with
  | PyObj.intVal i =>
      let j : Int := if i < 0 then i + xs.length else i
      if 0 ≤ j ∧ j.toNat < xs.length then Except.ok (xs.set j.toNat v)
      else Except.error PyErr.indexError
  | PyObj.npArr _ =>
      Except.error (PyErr.typeError "list index must be an integer")

/-- Embedding of the loop `for idx, arg in args: args[idx] =
_check_and_correct_zero_shape(arg)` in `convert_batch_to_numpy_identity`
(note the source iterates over `args` itself, not `enumerate(args)`, so each
list element is unpacked into the pair `idx, arg`). Python list iteration is
positional over the mutating list; element assignment never changes the
length, so `fuel = args.length - position` iterations remain. -/
def for_idx_arg_loop : Nat → Nat → List PyObj → Except PyErr (List PyObj)
  | 0, _, xs => Except.ok xs
  | fuel + 1, p, xs =>
      if h : p < xs.length then
        match unpack2 (xs.get ⟨p, h⟩) with
        | Except.error e => Except.error e
        | Except.ok (idx, arg) =>
            match list_setitem xs idx ( _check_and_correct_zero_shape arg) with
            | Except.error e => Except.error e
            | Except.ok xs2 => for_idx_arg_loop fuel (p + 1) xs2
      else Except.ok xs

/-- Embedding of `convert_batch_to_numpy_identity`: runs the broken
`for idx, arg in args` loop over the positional arguments, then rewrites
each keyword argument's value through `_check_and_correct_zero_shape`. -/
def convert_batch_to_numpy_identity (args : List PyObj)
    (kwargs : List (String × PyObj)) :
    Except PyErr (List PyObj × List (String × PyObj)) :=
  match for_idx_arg_loop args.length 0 args with
  | Except.error e => Except.error e
  | Except.ok args2 =>
      Except.ok
        (args2, kwargs.map (fun kv => (kv.1, _check_and_correct_zero_shape kv.2)))

/-- C6: the per-element correction does reshape a zero-rank array to a
rank-1 array of length 1, but `convert_batch_to_numpy_identity` itself does
not succeed on non-empty positional arguments: called with the single
positional argument `np.zeros(())` (a zero-rank array) it raises `TypeError`
instead of returning the reshaped array, and with a single plain integer it
also raises `TypeError` — the loop `for idx, arg in args` tries to unpack
each positional argument itself (a missing `enumerate`). Empty positional
arguments with a zero-rank keyword value are handled as the claim states. -/
theorem convert_batch_identity_raises_on_positional :
    _check_and_correct_zero_shape (PyObj.npArr []) = PyObj.npArr [1]
    ∧ convert_batch_to_numpy_identity [PyObj.npArr []] [] =
        Except.error (PyErr.typeError "iteration over a 0-d array")
    ∧ convert_batch_to_numpy_identity [PyObj.intVal 3] [] =
        Except.error (PyErr.typeError "cannot unpack non-iterable int")
    ∧ convert_batch_to_numpy_identity [] [("loss", PyObj.npArr [])] =
        Except.ok ([], [("loss", PyObj.npArr [1])]) :=
  ⟨rfl, rfl, rfl, rfl⟩

/- ## Lazily-initialized variables (train_utils.py, TF backend) -/

/-- Embedding of the probe inside `initialize_uninitialized`: the execution
context (`tf.Session` graph) is modelled by the list of per-variable
"already initialized" flags returned by
`sess.run([tf.is_variable_initialized(var) for var in tf.global_variables()])`,
one flag per variable position. This function computes the positions of
`not_initialized_vars` — the variables whose flag is `false` — with positions
counted from `start`. -/
def uninitialized_vars_from : List Bool → Nat → List Nat
  | [], _ => []
  | f :: rest, start =>
      if f then uninitialized_vars_from rest (start + 1)
      else start :: uninitialized_vars_from rest (start + 1)

/-- Model of `sess.run(tf.variables_initializer(vs))`: every variable whose
position is listed in `vs` becomes initialized; every other variable keeps
its flag. -/
def run_variables_initializer : List Bool → List Nat → Nat → List Bool
  | [], _, _ => []
  | f :: rest, vs, start =>
      (if start ∈ vs then true else f) ::
        run_variables_initializer rest vs (start + 1)

/-- Embedding of `initialize_uninitialized(sess)`: compute
`not_initialized_vars` and, if that list is non-empty, run
`tf.variables_initializer` on exactly those variables. -/
def initialize_uninitialized (sess : List Bool) : List Bool :=
  let not_initialized_vars := uninitialized_vars_from sess 0
  if not_initialized_vars.isEmpty then sess
  else run_variables_initializer sess not_initialized_vars 0

/-- Helper: every position reported by `uninitialized_vars_from sess j` is at
least `j`. -/
theorem uninit_vars_ge :
    ∀ (sess : List Bool) (j x : Nat), x < j →
      x ∉ uninitialized_vars_from sess j := by
  intro sess
  induction sess with
  | nil => intro j x _; simp [uninitialized_vars_from]
  | cons f rest ih =>
      intro j x h
      by_cases hf : f = true
      · simp only [uninitialized_vars_from, hf, if_true]
        exact ih (j + 1) x (by omega)
      · simp only [uninitialized_vars_from, hf, if_false, Bool.false_eq_true,
          List.mem_cons, not_or]
        exact ⟨by omega, ih (j + 1) x (by omega)⟩

/-- Helper: a listed position below the running offset never matches, so it
can be dropped from the initializer's list. -/
theorem run_init_drop_lt :
    ∀ (sess : List Bool) (vs : List Nat) (x j : Nat), x < j →
      run_variables_initializer sess (x :: vs) j =
        run_variables_initializer sess vs j := by
  intro sess
  induction sess with
  | nil => intro vs x j _; simp [run_variables_initializer]
  | cons f rest ih =>
      intro vs x j h
      have hne : ¬ j = x := by omega
      simp only [run_variables_initializer, List.mem_cons, hne, false_or]
      rw [ih vs x (j + 1) (by omega)]

/-- Helper: running the initializer on exactly the not-yet-initialized
positions leaves every variable initialized. -/
theorem run_init_all :
    ∀ (sess : List Bool) (i : Nat),
      run_variables_initializer sess (uninitialized_vars_from sess i) i =
        List.replicate sess.length true := by
  intro sess
  induction sess with
  | nil => intro i; simp [uninitialized_vars_from, run_variables_initializer]
  | cons f rest ih =>
      intro i
      by_cases hf : f = true
      · simp only [uninitialized_vars_from, hf, if_true,
          run_variables_initializer, List.length_cons, List.replicate_succ,
          ite_self]
        rw [ih (i + 1)]
      · simp only [uninitialized_vars_from, hf, if_false, Bool.false_eq_true,
          run_variables_initializer, List.length_cons, List.replicate_succ]
        rw [run_init_drop_lt rest (uninitialized_vars_from rest (i + 1)) i
            (i + 1) (by omega), ih (i + 1)]
        simp

/-- Helper: a fully initialized context reports no variables to
initialize. -/
theorem uninit_vars_replicate_true :
    ∀ (n i : Nat), uninitialized_vars_from (List.replicate n true) i = [] := by
  intro n
  induction n with
  | zero => intro i; simp [uninitialized_vars_from]
  | succ m ih => intro i; simp [List.replicate_succ, uninitialized_vars_from, ih]

/-- Helper: reading back a `true` entry of a replicated list. -/
theorem getD_replicate_true :
    ∀ (n k : Nat), k < n → (List.replicate n true).getD k false = true := by
  intro n
  induction n with
  | zero => intro k hk; omega
  | succ m ih =>
      intro k hk
      cases k with
      | zero => simp [List.replicate_succ]
      | succ k2 => simp only [List.replicate_succ, List.getD_cons_succ]
                   exact ih k2 (by omega)

/-- Helper: an already-initialized variable is not among the positions the
call initializes. -/
theorem not_in_uninit_of_init :
    ∀ (sess : List Bool) (off k : Nat) (hk : k < sess.length),
      sess.get ⟨k, hk⟩ = true →
        (off + k) ∉ uninitialized_vars_from sess off := by
  intro sess
  induction sess with
  | nil => intro off k hk; exact absurd hk (by simp)
  | cons f rest ih =>
      intro off k hk hget
      cases k with
      | zero =>
          simp only [List.get] at hget
          simp only [uninitialized_vars_from, hget, if_true, Nat.add_zero]
          exact uninit_vars_ge rest (off + 1) off (by omega)
      | succ k2 =>
          simp only [List.get] at hget
          have hrec := ih (off + 1) k2 (by simpa using hk) hget
          have harith : off + (k2 + 1) = (off + 1) + k2 := by omega
          by_cases hf : f = true
          · simp only [uninitialized_vars_from, hf, if_true]
            rw [harith]
            exact hrec
          · simp only [uninitialized_vars_from, hf, if_false,
              Bool.false_eq_true, List.mem_cons, not_or]
            refine ⟨by omega, ?_⟩
            rw [harith]
            exact hrec

/-- C7: `initialize_uninitialized` initializes exactly the variables that are
not yet initialized (an already-initialized variable is never in the list
passed to the initializer and its flag is untouched), and the call is
idempotent: afterwards the set of variables still to initialize is empty, so
an immediately repeated call performs no additional initialization. -/
theorem reconcile_uninitialized_exact_and_idempotent
    (sess : List Bool) (k : Nat) (hk : k < sess.length)
    (hinit : sess.get ⟨k, hk⟩ = true) :
    k ∉ uninitialized_vars_from sess 0
    ∧ (initialize_uninitialized sess).getD k false = true
    ∧ uninitialized_vars_from (initialize_uninitialized sess) 0 = []
    ∧ initialize_uninitialized (initialize_uninitialized sess) =
        initialize_uninitialized sess := by
  have hnotin : k ∉ uninitialized_vars_from sess 0 := by
    have := not_in_uninit_of_init sess 0 k hk hinit
    simpa using this
  by_cases hE : (uninitialized_vars_from sess 0).isEmpty = true
  · have hnil : uninitialized_vars_from sess 0 = [] :=
      List.isEmpty_iff.mp hE
    have hid : initialize_uninitialized sess = sess := by
      simp [initialize_uninitialized, hE]
    refine ⟨hnotin, ?_, ?_, ?_⟩
    · rw [hid]
      rw [List.getD_eq_getElem?_getD, List.getElem?_eq_getElem hk]
      simpa [List.get_eq_getElem] using hinit
    · rw [hid, hnil]
    · rw [hid, hid]
  · have hrun : initialize_uninitialized sess =
        List.replicate sess.length true := by
      simp only [initialize_uninitialized, hE, if_false, Bool.false_eq_true]
      exact run_init_all sess 0
    refine ⟨hnotin, ?_, ?_, ?_⟩
    · rw [hrun]
      exact getD_replicate_true sess.length k hk
    · rw [hrun]
      exact uninit_vars_replicate_true sess.length 0
    · rw [hrun]
      simp [initialize_uninitialized, uninit_vars_replicate_true]

/-- Witness for `reconcile_uninitialized_exact_and_idempotent` on a context
with one initialized and one uninitialized variable. -/
theorem reconcile_uninitialized_exact_and_idempotent_witness :
    0 ∉ uninitialized_vars_from [true, false] 0
    ∧ (initialize_uninitialized [true, false]).getD 0 false = true
    ∧ uninitialized_vars_from (initialize_uninitialized [true, false]) 0 = []
    ∧ initialize_uninitialized (initialize_uninitialized [true, false]) =
        initialize_uninitialized [true, false] :=
  reconcile_uninitialized_exact_and_idempotent [true, false] 0 (by decide)
    (by decide)

/- ## TfNetworkTrainer (tf_trainer.py) -/

/-- A resumable model snapshot (the spec's checkpoint contents, reduced to an
abstract parameter vector). -/
structure ModelState where
  params : List Int
deriving DecidableEq, Repr

/-- The trainer state `_at_training_end` reads: the configured save path and
the module (model handle) currently held, `self.module`. -/
structure TfTrainerEnd where
  save_path : String
  module : ModelState
deriving DecidableEq, Repr

/-- Embedding of `os.path.join` for the two-component joins the trainer
performs. -/
def path_join (a b : String) : String := a ++ "/" ++ b

/-- Modelled from the spec: `tf_load_checkpoint` (module `delira.io`, not
among the sources here) restores the snapshot persisted under a checkpoint
label; per the CheckpointManager contract it fails with the
CheckpointNotFound condition when the label does not exist. The persistence
layer is modelled as a map from checkpoint base paths to stored
snapshots; a TF checkpoint saved under base path `p` is present on disk
together with its `p.meta` file, so `os.path.isfile` on the `.meta` path is
`true` exactly when the map holds `p`. -/
def tf_load_checkpoint (checkpoints : String → Option ModelState)
    (file : String) : Except PyErr ModelState :=
  match checkpoints file with
  | some st => Except.ok st
  | none => Except.error PyErr.checkpointNotFound

/-- Modelled from the spec: `update_state` (defined on the base trainer,
which is not among the sources here) loads the checkpoint at `file` into the
trainer's module. -/
def update_state (checkpoints : String → Option ModelState)
    (t : TfTrainerEnd) (file : String) : Except PyErr TfTrainerEnd :=
  match tf_load_checkpoint checkpoints file with
  | Except.ok st => Except.ok { t with module := st }
  | Except.error e => Except.error e

/-- Embedding of `TfNetworkTrainer._at_training_end`: if the file
`save_path/checkpoint_best.meta` exists, load the best checkpoint via
`update_state(save_path/checkpoint_best)`; in every case return
`self.module`. -/
def _at_training_end (checkpoints : String → Option ModelState)
    (t : TfTrainerEnd) : Except PyErr ModelState :=
  if (checkpoints (path_join t.save_path "checkpoint_best")).isSome then
    match update_state checkpoints t (path_join t.save_path "checkpoint_best") with
    | Except.ok t2 => Except.ok t2.module
    | Except.error e => Except.error e
  else
    Except.ok t.module

/-- C8: at the end of training the orchestrator loads the "best" checkpoint
if and only if one exists at the save path, returning the loaded best model
in that case; if no best checkpoint exists it returns the last-trained model
with its state unchanged. -/
theorem at_training_end_loads_best_iff_exists
    (checkpoints : String → Option ModelState) (t : TfTrainerEnd) :
    (∀ best : ModelState,
        checkpoints (path_join t.save_path "checkpoint_best") = some best →
        _at_training_end checkpoints t = Except.ok best)
    ∧ (checkpoints (path_join t.save_path "checkpoint_best") = none →
        _at_training_end checkpoints t = Except.ok t.module) := by
  constructor
  · intro best hbest
    simp [_at_training_end, update_state, tf_load_checkpoint, hbest]
  · intro hnone
    simp [_at_training_end, hnone]

/-- Witness for `at_training_end_loads_best_iff_exists`: a store holding a
best checkpoint under `run/checkpoint_best` (first conjunct) and the empty
store (second conjunct). -/
theorem at_training_end_loads_best_iff_exists_witness :
    _at_training_end
        (fun p => if p = "run/checkpoint_best" then some ⟨[3, 4]⟩ else none)
        ⟨"run", ⟨[0]⟩⟩ = Except.ok ⟨[3, 4]⟩
    ∧ _at_training_end (fun _ => none) ⟨"run", ⟨[0]⟩⟩ = Except.ok ⟨[0]⟩ :=
  ⟨(at_training_end_loads_best_iff_exists
      (fun p => if p = "run/checkpoint_best" then some ⟨[3, 4]⟩ else none)
      ⟨"run", ⟨[0]⟩⟩).1 ⟨[3, 4]⟩ (by simp [path_join]),
   (at_training_end_loads_best_iff_exists (fun _ => none)
      ⟨"run", ⟨[0]⟩⟩).2 rfl⟩

/-- The model handle's mutable training/evaluation mode flag
(`self.module.training`). -/
structure TfModel where
  training : Bool
deriving DecidableEq, Repr

/-- Trainer state for the phase methods: the module it drives. -/
structure TfTrainerPhase where
  module : TfModel
deriving DecidableEq, Repr

/-- Modelled from the spec: `BaseNetworkTrainer._train_single_epoch` (the
base class is not among the sources here) iterates all batches of the data
feed, and per batch the backend's forward/backward step observes the model's
mode flag. The model records the flag the module presents at each of the
`n_batches` batch steps. -/
def base_train_single_epoch (t : TfTrainerPhase) (n_batches : Nat) :
    List Bool :=
  List.replicate n_batches t.module.training

/-- Modelled from the spec: `BaseNetworkTrainer.predict_data_mgr` (base
class not among the sources here) iterates all validation/prediction
batches, computing only metrics; per batch the backend observes the model's
mode flag. -/
def base_predict_data_mgr (t : TfTrainerPhase) (n_batches : Nat) :
    List Bool :=
  List.replicate n_batches t.module.training

/-- Embedding of `TfNetworkTrainer._train_single_epoch`: sets
`self.module.training = True`, then delegates to the base-class epoch
loop. -/
def tf_train_single_epoch (t : TfTrainerPhase) (n_batches : Nat) :
    List Bool :=
  let t2 : TfTrainerPhase := { t with module := { t.module with training := true } }
  base_train_single_epoch t2 n_batches

/-- Embedding of `TfNetworkTrainer.predict_data_mgr`: sets
`self.module.training = False`, then delegates to the base-class prediction
loop. -/
def tf_predict_data_mgr (t : TfTrainerPhase) (n_batches : Nat) :
    List Bool :=
  let t2 : TfTrainerPhase := { t with module := { t.module with training := false } }
  base_predict_data_mgr t2 n_batches

/-- C9: every train-phase run presents the module in training mode
(flag `true`) at every one of its batch steps, and every
validation/prediction run presents the module in evaluation mode
(flag `false`) at every one of its batch steps, whatever mode the module was
in before. -/
theorem phase_sets_module_mode (t : TfTrainerPhase) (n_batches : Nat) :
    tf_train_single_epoch t n_batches = List.replicate n_batches true
    ∧ tf_predict_data_mgr t n_batches = List.replicate n_batches false :=
  ⟨rfl, rfl⟩

/-- Attribute lookup state of a trainer object, as a map from attribute
names to values (attribute values are reduced to integers). -/
def setattr (attrs : String → Option Int) (key : String) (val : Int) :
    String → Option Int :=
  fun k => if k = key then some val else attrs k

/-- Embedding of the tail of `TfNetworkTrainer.__init__`:
`for key, val in kwargs.items(): setattr(self, key, val)` — every extra
keyword option is attached to the trainer object, recognized or not, and no
error is ever raised. -/
def tf_trainer_attach_kwargs (attrs : String → Option Int)
    (kwargs : List (String × Int)) : String → Option Int :=
  kwargs.foldl (fun a kv => setattr a kv.1 kv.2) attrs

/-- C10 counterexample: constructing with the unrecognized keyword option
`definitely_not_an_option` neither raises nor drops it — afterwards the
trainer object carries it as an attribute with the given value. -/
theorem tf_trainer_unknown_kwarg_attached :
    tf_trainer_attach_kwargs (fun _ => none)
      [("definitely_not_an_option", 42)] "definitely_not_an_option" =
      some 42 :=
  rfl

/-- Helper: keys not named by any keyword are untouched by the kwargs
loop. -/
theorem attach_kwargs_notmem :
    ∀ (kwargs : List (String × Int)) (attrs : String → Option Int)
      (key : String), key ∉ kwargs.map Prod.fst →
      tf_trainer_attach_kwargs attrs kwargs key = attrs key := by
  intro kwargs
  induction kwargs with
  | nil => intro attrs key _; rfl
  | cons kv rest ih =>
      intro attrs key hmem
      simp only [List.map_cons, List.mem_cons, not_or] at hmem
      simp only [tf_trainer_attach_kwargs, List.foldl_cons]
      rw [show (List.foldl (fun a kv => setattr a kv.1 kv.2)
            (setattr attrs kv.1 kv.2) rest) =
          tf_trainer_attach_kwargs (setattr attrs kv.1 kv.2) rest from rfl]
      rw [ih (setattr attrs kv.1 kv.2) key hmem.2]
      simp [setattr, hmem.1]

/-- C10 amended: construction does not reject unknown keyword options — for
keyword mappings with distinct keys, every supplied pair ends up silently
attached as an attribute of the trainer object (and attributes not named by
any keyword are unchanged). -/
theorem tf_trainer_kwargs_silently_attached
    (attrs : String → Option Int) (kwargs : List (String × Int))
    (key : String) (val : Int)
    (hmem : (key, val) ∈ kwargs) (hnd : (kwargs.map Prod.fst).Nodup) :
    tf_trainer_attach_kwargs attrs kwargs key = some val := by
  induction kwargs generalizing attrs with
  | nil => exact absurd hmem (List.not_mem_nil _)
  | cons kv rest ih =>
      simp only [List.map_cons, List.nodup_cons] at hnd
      simp only [tf_trainer_attach_kwargs, List.foldl_cons]
      rcases List.mem_cons.mp hmem with heq | hrest
      · subst heq
        rw [show (List.foldl (fun a kv => setattr a kv.1 kv.2)
              (setattr attrs key val) rest) =
            tf_trainer_attach_kwargs (setattr attrs key val) rest from rfl]
        rw [attach_kwargs_notmem rest (setattr attrs key val) key hnd.1]
        simp [setattr]
      · exact ih (setattr attrs kv.1 kv.2) hrest hnd.2

/-- Witness for `tf_trainer_kwargs_silently_attached` on a two-option
keyword mapping. -/
theorem tf_trainer_kwargs_silently_attached_witness :
    tf_trainer_attach_kwargs (fun _ => none)
      [("fold_override", 7), ("definitely_not_an_option", 42)]
      "definitely_not_an_option" = some 42 :=
  tf_trainer_kwargs_silently_attached (fun _ => none)
    [("fold_override", 7), ("definitely_not_an_option", 42)]
    "definitely_not_an_option" 42 (by simp) (by simp)

/-- Witness for `sampler_cursor_invariant` on a population of size 2 with
the cursor at 1 and request size 3. -/
theorem sampler_cursor_invariant_witness :
    (initState [9] none)._global_index ≤
      (initState [9] none)._indices.length
    ∧ ((_get_indices ⟨[4, 5], none, 1⟩ 3).2)._global_index ≤
        ((_get_indices ⟨[4, 5], none, 1⟩ 3).2)._indices.length
    ∧ (∀ e, (_get_indices ⟨[4, 5], none, 1⟩ 3).1 = Except.error e →
        ((_get_indices ⟨[4, 5], none, 1⟩ 3).2)._global_index = 0) :=
  sampler_cursor_invariant [9] none ⟨[4, 5], none, 1⟩ 3 (by decide)
